import Mathlib

/-!
Verification of the cci-node-server OAuth2 PKCE relay.

This file gives a shallow embedding of the server's request handlers and
utility functions, translated from the JavaScript sources:

* `utils.js` / `index.js`: `generateCodeChallenge` (SHA-256, Base64, URL-safe
  substitutions), embedded here with a full executable SHA-256 and Base64
  encoder;
* `index.js` and `part_002` (session variant): the `/auth` and `/callback`
  handlers storing the state and code verifier in a Redis-backed session;
* `main.js` and `part_003` (cookie variant): the `/auth` and `/callback`
  handlers storing the secrets in HTTP-only cookies and delivering the token
  by redirect;
* `main.js`: the `/api/uploadToS3` and `/api/updateItemFulfillmentRecord`
  handlers;
* `config.js` (`part_000`): the Joi schema validation of the environment.

External collaborators (the axios token exchange, the S3 client) are passed
in as explicit arguments, so every handler is a pure function from its
request, its stored state and the collaborator's answer to its response.
-/

/-! ## Generic list and string helpers (JS string primitives) -/

/-- Chars-level test that the second list occurs at the head of the first;
the model of a JS string comparison step used by the substring test. -/
def startsWithL : List Char → List Char → Bool
  | [], _ => true
  | _ :: _, [] => false
  | a :: as, b :: bs => a == b && startsWithL as bs

/-- Model of JS `String.prototype.includes`: `sub` occurs contiguously in `s`. -/
def segIn (sub : List Char) : List Char → Bool
  | [] => sub.isEmpty
  | a :: t => startsWithL sub (a :: t) || segIn sub t

/-- String version of `segIn`: `containsSeg s sub` models `s.includes(sub)`. -/
def containsSeg (s sub : String) : Bool := segIn sub.data s.data

/-- String version of `startsWithL`: does `s` begin with `p`? -/
def strStartsWith (p s : String) : Bool := startsWithL p.data s.data

/-- Model of JS `replace(/a/g, b)` on a string's characters. -/
def replAll (a b : Char) (l : List Char) : List Char :=
  l.map (fun c => if c = a then b else c)

/-- Model of JS `replace(/a/g, '')`: drop every occurrence of `a`. -/
def stripChar (a : Char) (l : List Char) : List Char :=
  l.filter (fun c => c != a)

/-! ## SHA-256 (crypto.createHash('sha256'), byte-level, executable) -/

/-- Truncate to a 32-bit word, the arithmetic domain of SHA-256. -/
def w32 (x : Nat) : Nat := x % 4294967296

/-- Rotate a 32-bit word right by `n`. -/
def rotr (n x : Nat) : Nat := w32 ((x >>> n) ||| (x <<< (32 - n)))

/-- SHA-256 big Sigma0. -/
def bSig0 (x : Nat) : Nat := (rotr 2 x) ^^^ (rotr 13 x) ^^^ (rotr 22 x)

/-- SHA-256 big Sigma1. -/
def bSig1 (x : Nat) : Nat := (rotr 6 x) ^^^ (rotr 11 x) ^^^ (rotr 25 x)

/-- SHA-256 small sigma0. -/
def sSig0 (x : Nat) : Nat := (rotr 7 x) ^^^ (rotr 18 x) ^^^ (x >>> 3)

/-- SHA-256 small sigma1. -/
def sSig1 (x : Nat) : Nat := (rotr 17 x) ^^^ (rotr 19 x) ^^^ (x >>> 10)

/-- SHA-256 choice function, with the 32-bit complement written as xor. -/
def chF (x y z : Nat) : Nat := (x &&& y) ^^^ ((x ^^^ 4294967295) &&& z)

/-- SHA-256 majority function. -/
def majF (x y z : Nat) : Nat := (x &&& y) ^^^ (x &&& z) ^^^ (y &&& z)

/-- The 64 SHA-256 round constants, written in decimal. -/
def K256 : List Nat :=
  [1116352408, 1899447441, 3049323471, 3921009573, 961987163, 1508970993,
   2453635748, 2870763221, 3624381080, 310598401, 607225278, 1426881987,
   1925078388, 2162078206, 2614888103, 3248222580, 3835390401, 4022224774,
   264347078, 604807628, 770255983, 1249150122, 1555081692, 1996064986,
   2554220882, 2821834349, 2952996808, 3210313671, 3336571891, 3584528711,
   113926993, 338241895, 666307205, 773529912, 1294757372, 1396182291,
   1695183700, 1986661051, 2177026350, 2456956037, 2730485921, 2820302411,
   3259730800, 3345764771, 3516065817, 3600352804, 4094571909, 275423344,
   430227734, 506948616, 659060556, 883997877, 958139571, 1322822218,
   1537002063, 1747873779, 1955562222, 2024104815, 2227730452, 2361852424,
   2428436474, 2756734187, 3204031479, 3329325298]

/-- The eight 32-bit words of a SHA-256 chaining state. -/
structure Hash8 where
  a : Nat
  b : Nat
  c : Nat
  d : Nat
  e : Nat
  f : Nat
  g : Nat
  h : Nat

/-- The SHA-256 initial hash value, written in decimal. -/
def initH : Hash8 :=
  ⟨1779033703, 3144134277, 1013904242, 2773480762,
   1359893119, 2600822924, 528734635, 1541459225⟩

/-- SHA-256 padding: append 0x80, zeros to 56 mod 64, and the 64-bit
big-endian bit length. -/
def padMsg (msg : List Nat) : List Nat :=
  let L := msg.length
  let z := (119 - L % 64) % 64
  let bitLen := L * 8
  msg ++ 0x80 :: (List.replicate z 0 ++
    [(bitLen >>> 56) % 256, (bitLen >>> 48) % 256, (bitLen >>> 40) % 256, (bitLen >>> 32) % 256,
     (bitLen >>> 24) % 256, (bitLen >>> 16) % 256, (bitLen >>> 8) % 256, bitLen % 256])

/-- Split a byte list into 64-byte blocks. -/
def toBlocks (l : List Nat) : List (List Nat) :=
  if h : l = [] then []
  else l.take 64 :: toBlocks (l.drop 64)
termination_by l.length
decreasing_by
  simp [List.length_drop]
  exact List.length_pos.mpr h

/-- Group bytes into big-endian 32-bit words. -/
def bytesToWords : List Nat → List Nat
  | b0 :: b1 :: b2 :: b3 :: rest =>
      (b0 * 16777216 + b1 * 65536 + b2 * 256 + b3) :: bytesToWords rest
  | _ => []

/-- Extend the 16-word message schedule by `k` more words. -/
def extendW (w : List Nat) : Nat → List Nat
  | 0 => w
  | k + 1 =>
      let n := w.length
      extendW
        (w ++ [w32 (sSig1 (w.getD (n - 2) 0) + w.getD (n - 7) 0 +
                    sSig0 (w.getD (n - 15) 0) + w.getD (n - 16) 0)]) k

/-- One SHA-256 compression round. -/
def sha256Round (s : Hash8) (ki wi : Nat) : Hash8 :=
  let t1 := w32 (s.h + bSig1 s.e + chF s.e s.f s.g + ki + wi)
  let t2 := w32 (bSig0 s.a + majF s.a s.b s.c)
  ⟨w32 (t1 + t2), s.a, s.b, s.c, w32 (s.d + t1), s.e, s.f, s.g⟩

/-- Compress one 64-byte block into the chaining state. -/
def compressBlock (s : Hash8) (block : List Nat) : Hash8 :=
  let w := extendW (bytesToWords block) 48
  let t := (K256.zip w).foldl (fun st p => sha256Round st p.1 p.2) s
  ⟨w32 (s.a + t.a), w32 (s.b + t.b), w32 (s.c + t.c), w32 (s.d + t.d),
   w32 (s.e + t.e), w32 (s.f + t.f), w32 (s.g + t.g), w32 (s.h + t.h)⟩

/-- Serialize a 32-bit word as four big-endian bytes. -/
def wordBytes (x : Nat) : List Nat :=
  [(x >>> 24) % 256, (x >>> 16) % 256, (x >>> 8) % 256, x % 256]

/-- The SHA-256 digest of a byte message, as 32 bytes. -/
def sha256Bytes (msg : List Nat) : List Nat :=
  let fin := (toBlocks (padMsg msg)).foldl compressBlock initH
  wordBytes fin.a ++ wordBytes fin.b ++ wordBytes fin.c ++ wordBytes fin.d ++
  wordBytes fin.e ++ wordBytes fin.f ++ wordBytes fin.g ++ wordBytes fin.h

/-- The UTF-8 bytes of a string, the input `crypto.update` hashes. -/
def strBytes (s : String) : List Nat := s.toUTF8.toList.map (fun b => b.toNat)

/-! ## Base64 (Buffer digest('base64')) -/

/-- The standard Base64 alphabet. -/
def b64Alphabet : List Char :=
  "ABCDEFGHIJKLMNOPQRSTUVWXYZabcdefghijklmnopqrstuvwxyz0123456789+/".data

/-- Base64 alphabet lookup. -/
def b64c (n : Nat) : Char := b64Alphabet.getD n 'A'

/-- Standard Base64 encoding of a byte list, with `=` padding. -/
def b64encode : List Nat → List Char
  | [] => []
  | [b1] => [b64c (b1 / 4), b64c (b1 % 4 * 16), '=', '=']
  | [b1, b2] => [b64c (b1 / 4), b64c (b1 % 4 * 16 + b2 / 16), b64c (b2 % 16 * 4), '=']
  | b1 :: b2 :: b3 :: rest =>
      b64c (b1 / 4) :: b64c (b1 % 4 * 16 + b2 / 16) ::
      b64c (b2 % 16 * 4 + b3 / 64) :: b64c (b3 % 64) :: b64encode rest

/-! ## The secret generator (utils.js) -/

/-- Translation of `generateCodeChallenge(verifier)` from `utils.js` and
`index.js`: SHA-256 the verifier, Base64-encode the digest, then apply the
three URL-safe substitutions in source order. -/
def generateCodeChallenge (verifier : String) : String :=
  ⟨stripChar '=' (replAll '/' '_' (replAll '+' '-' (b64encode (sha256Bytes (strBytes verifier)))))⟩

/-! ## OAuth2 flow data model -/

/-- The token payload returned by the provider's token endpoint
(`response.data`); the cookie variant reads its `access_token` field. -/
structure TokenData where
  access_token : String
deriving DecidableEq

/-- Deployment configuration values used by the handlers (from `config.js`
via the environment). -/
structure OAuthConfig where
  stepOneEndpoint : String
  clientId : String
  redirectUri : String
  scope : String
  appHome : String
deriving DecidableEq

/-- The provider authorization URL built by the `/auth` handlers (identical
in both variants). -/
def authorizationUrl (cfg : OAuthConfig) (state challenge : String) : String :=
  cfg.stepOneEndpoint ++ "?response_type=code&client_id=" ++ cfg.clientId ++
  "&redirect_uri=" ++ cfg.redirectUri ++ "&scope=" ++ cfg.scope ++
  "&state=" ++ state ++ "&code_challenge=" ++ challenge ++
  "&code_challenge_method=S256"

/-! ## Session variant (index.js, part_002): Redis-backed session store -/

/-- The per-client session object: the two transient secrets and the stored
token, each absent (`none`, JS `undefined`) until written. -/
structure SessionData where
  oauthState : Option String
  codeVerifier : Option String
  tokenData : Option TokenData
deriving DecidableEq

/-- Result of the session-variant `/callback` handler: HTTP status, body,
the session after the request, whether the token-exchange POST was issued,
and what was logged server-side. -/
structure SessionCallbackResult where
  status : Nat
  body : String
  sessionAfter : SessionData
  exchangeCalled : Bool
  logged : List String
deriving DecidableEq

/-- The CSRF rejection body sent by every variant's `/callback`. -/
def CSRF_MSG : String := "State value does not match. Possible CSRF attack."

/-- The session-variant `/auth` handler (index.js lines 62-72): generate the
secrets (passed in, as the random source is external), store them in the
session, redirect to the provider. Returns the session after the request and
the redirect URL. -/
def authSession (cfg : OAuthConfig) (sess : SessionData) (state codeVerifier : String) :
    SessionData × String :=
  ({ sess with oauthState := some state, codeVerifier := some codeVerifier },
   authorizationUrl cfg state (generateCodeChallenge codeVerifier))

/-- The session-variant `/callback` handler (index.js lines 74-109).
`returnedState` and `code` are the `state` and `code` query parameters
(`none` when absent); `exch` is the outcome the provider's token endpoint
would give if called. The guard is JS `req.session.oauthState !==
returnedState`, strict inequality on possibly-undefined values. -/
def callbackSession (sess : SessionData) (returnedState code : Option String)
    (exch : Except String TokenData) : SessionCallbackResult :=
  if sess.oauthState ≠ returnedState then
    { status := 400, body := CSRF_MSG, sessionAfter := sess,
      exchangeCalled := false, logged := [] }
  else
    match exch with
    | .ok tok =>
        let sessCleared : SessionData :=
          { sess with oauthState := none, codeVerifier := none, tokenData := some tok }
        { status := 200, body := "Token obtained and stored securely!",
          sessionAfter := sessCleared,
          exchangeCalled := true, logged := ["Response from the API"] }
    | .error err =>
        { status := 500, body := "Error obtaining token.",
          sessionAfter := sess, exchangeCalled := true,
          logged := ["Error details: " ++ err] }

/-! ## Cookie variant (main.js, part_003): client-held HTTP-only cookies -/

/-- The two transient-secret cookies (`oauth_state`, `oauth_code_verifier`);
`none` when the cookie is absent or cleared. -/
structure CookieJar where
  oauth_state : Option String
  oauth_code_verifier : Option String
deriving DecidableEq

/-- Result of the cookie-variant `/callback` handler. A success is a 302
redirect carrying the URL-encoded access token; an exchange failure goes to
`next(error)`, i.e. the `handleError` middleware's 500. -/
structure CookieCallbackResult where
  status : Nat
  body : String
  redirectTo : Option String
  cookiesAfter : CookieJar
  exchangeCalled : Bool
  logged : List String
deriving DecidableEq

/-- JS `encodeURIComponent` unreserved characters. -/
def uriUnreserved (c : Char) : Bool :=
  c.isAlphanum || ['-', '_', '.', '!', '~', '*', '\'', '(', ')'].contains c

/-- Uppercase hex digit of a value below 16. -/
def hexDigit (n : Nat) : Char := "0123456789ABCDEF".data.getD n '0'

/-- Percent-encode one byte. -/
def pctByte (b : Nat) : List Char := ['%', hexDigit (b / 16), hexDigit (b % 16)]

/-- Model of JS `encodeURIComponent`: keep unreserved characters, percent-
encode the UTF-8 bytes of everything else. -/
def encodeURIComponent (s : String) : String :=
  ⟨(s.data.map (fun c =>
      if uriUnreserved c then [c]
      else (((String.singleton c).toUTF8.toList.map (fun b => b.toNat)).map pctByte).flatten)).flatten⟩

/-- The cookie-variant `/auth` handler (main.js lines 88-98): set the two
secret cookies and redirect to the provider. -/
def authCookie (cfg : OAuthConfig) (state codeVerifier : String) : CookieJar × String :=
  (⟨some state, some codeVerifier⟩,
   authorizationUrl cfg state (generateCodeChallenge codeVerifier))

/-- The cookie-variant `/callback` handler (main.js lines 101-129). The guard
is JS `returnedState !== storedState` on the `oauth_state` cookie; on success
both cookies are cleared and the client is redirected to the dashboard with
the URL-encoded access token; on exchange failure `next(error)` reaches
`handleError` (part_001 lines 37-43), which logs the detail and sends a
generic 500. -/
def callbackCookie (cfg : OAuthConfig) (cookies : CookieJar)
    (returnedState code : Option String) (exch : Except String TokenData) :
    CookieCallbackResult :=
  if returnedState ≠ cookies.oauth_state then
    { status := 400, body := CSRF_MSG, redirectTo := none,
      cookiesAfter := cookies, exchangeCalled := false, logged := [] }
  else
    match exch with
    | .ok tok =>
        { status := 302, body := "",
          redirectTo := some (cfg.appHome ++ "/dashboard?data=" ++
                              encodeURIComponent tok.access_token),
          cookiesAfter := ⟨none, none⟩, exchangeCalled := true, logged := [] }
    | .error err =>
        { status := 500, body := "Internal Server Error", redirectTo := none,
          cookiesAfter := cookies, exchangeCalled := true,
          logged := ["Error details: " ++ err] }

/-! ## Downstream relay: /api/updateItemFulfillmentRecord (main.js 337-354) -/

/-- HTTP method of a registered route. -/
inductive HttpMethod where
  | GET
  | POST
  | PATCH
deriving DecidableEq

/-- The method `/api/updateItemFulfillmentRecord` is registered with: the
source uses `app.get`. -/
def updateItemFulfillmentRecordMethod : HttpMethod := .GET

/-- JS template-literal interpolation of a possibly-undefined value. -/
def orUndefined : Option String → String
  | some s => s
  | none => "undefined"

/-- Result of the update-record relay: status, body, and the (url, bearer
header) of the outbound PATCH when one was issued. -/
structure RelayResult where
  status : Nat
  body : String
  patched : Option (String × String)
deriving DecidableEq

/-- The `/api/updateItemFulfillmentRecord` handler (main.js lines 337-354):
read `data` and `id` from the query string, PATCH the downstream record URL
with an empty payload and a bearer header, return the downstream JSON; a
rejected request goes to `next(error)`, i.e. `handleError`'s generic 500.
`patchResp` is the downstream's answer. No field validation is performed. -/
def updateItemFulfillmentRecord (restRootUri : String)
    (dataQ idQ : Option String) (patchResp : Except String String) : RelayResult :=
  let url := restRootUri ++ "/itemFulfillment/" ++ orUndefined idQ
  let bearer := "Bearer " ++ orUndefined dataQ
  match patchResp with
  | .ok j => { status := 200, body := j, patched := some (url, bearer) }
  | .error _ => { status := 500, body := "Internal Server Error", patched := some (url, bearer) }

/-! ## Upload relay: /api/uploadToS3 (main.js 365-399) -/

/-- A multer in-memory file: original filename, MIME type, buffered bytes
(kept opaque as a string). -/
structure UploadFile where
  originalname : String
  mimetype : String
  buffer : String
deriving DecidableEq

/-- The storage-related configuration values the handler reads. -/
structure S3Config where
  bucketName : String
  acl : String
  picturesFolder : String
  signaturesFolder : String
  publicEndpoint : String
deriving DecidableEq

/-- The parameter object passed to `s3.upload`. -/
structure UploadParams where
  paramBucket : String
  paramKey : String
  paramBody : String
  paramContentType : String
  paramAcl : String
deriving DecidableEq

/-- The object key chosen for a file (main.js line 377): filenames containing
`picture` go to the pictures folder, everything else to the signatures
folder. -/
def uploadFullFileName (cfg : S3Config) (f : UploadFile) : String :=
  if containsSeg f.originalname "picture"
  then cfg.picturesFolder ++ "/" ++ f.originalname
  else cfg.signaturesFolder ++ "/" ++ f.originalname

/-- Model of `location.substring(location.indexOf('m') + 1)` (main.js line
387): drop everything up to and including the first `m`; when no `m` occurs,
`indexOf` is -1 and the whole string is kept. -/
def afterFirstM (s : String) : String :=
  if s.data.contains 'm' then ⟨dropThroughM s.data⟩ else s
where
  /-- Drop up to and including the first `m` of a character list. -/
  dropThroughM : List Char → List Char
    | [] => []
    | a :: t => if a = 'm' then t else dropThroughM t

/-- The public URL derived from an upload result's `Location` (main.js lines
387-388). -/
def publicUrlOf (cfg : S3Config) (location : String) : String :=
  cfg.publicEndpoint ++ afterFirstM location

/-- Result of the upload handler: status, message, the returned URLs, and
the parameter objects actually sent to object storage. -/
structure UploadResult where
  status : Nat
  message : String
  urls : List String
  uploadedParams : List UploadParams
deriving DecidableEq

/-- The `/api/uploadToS3` handler (main.js lines 365-399). `locOf` is the
external S3 client: the `Location` it reports for an upload. With a file
count other than 2 the request fails 400 before anything is uploaded;
otherwise every file is uploaded under its classified key and the response
carries the derived public URLs. -/
def uploadToS3 (cfg : S3Config) (locOf : UploadParams → String)
    (files : List UploadFile) : UploadResult :=
  if files.length ≠ 2 then
    { status := 400, message := "Both signature and image files are required.",
      urls := [], uploadedParams := [] }
  else
    let params := files.map (fun f =>
      ⟨cfg.bucketName, uploadFullFileName cfg f, f.buffer, f.mimetype, cfg.acl⟩)
    { status := 200, message := "Images successfully uploaded.",
      urls := params.map (fun p => publicUrlOf cfg (locOf p)),
      uploadedParams := params }

/-! ## Startup configuration validation (config.js, part_000 lines 5-46) -/

/-- The kind of one Joi schema entry: a required string, a required number,
or an optional enumerated string with a default. -/
inductive JFieldKind where
  | reqString
  | reqNumber
  | optEnum (allowed : List String)
deriving DecidableEq

/-- One entry of the Joi schema: an environment key and its kind. -/
structure JField where
  key : String
  kind : JFieldKind
deriving DecidableEq

/-- An environment: a finite association of variable names to values. -/
def EnvMap := List (String × String)

/-- Look an environment variable up. -/
def lookupEnv (env : EnvMap) (k : String) : Option String :=
  (env.find? (fun p => p.1 == k)).map (fun p => p.2)

/-- Does a string convert to a Joi number? Modelled as a nonempty decimal
digit string (an optional leading minus sign would extend this; the claims
do not depend on the exact numeric grammar). -/
def isNumStr (s : String) : Bool :=
  !s.data.isEmpty && s.data.all Char.isDigit

/-- Is a present value well-formed for a field kind? Joi's `string()`
rejects the empty string; `number()` requires numeric conversion; an enum
requires membership. -/
def fieldOk : JFieldKind → String → Bool
  | .reqString, v => v != ""
  | .reqNumber, v => isNumStr v
  | .optEnum allowed, v => allowed.contains v

/-- Is a field kind required (no default)? Only the enum entry carries a
default. -/
def isRequiredKind : JFieldKind → Bool
  | .optEnum _ => false
  | _ => true

/-- Validation of one schema entry against an environment: a missing
required entry fails, a missing optional entry takes its default, a present
value must be well-formed. -/
def validateField (env : EnvMap) (f : JField) : Bool :=
  match lookupEnv env f.key, f.kind with
  | none, .optEnum _ => true
  | none, _ => false
  | some v, k => fieldOk k v

/-- Joi `schema.validate(env)` with `.unknown(true)`: every schema entry must
validate; keys outside the schema are ignored. -/
def validateEnv (schema : List JField) (env : EnvMap) : Bool :=
  schema.all (validateField env)

/-- The environment schema of `config.js` (part_000 lines 5-36). -/
def cciConfigSchema : List JField :=
  [⟨"CLIENT_ID", .reqString⟩,
   ⟨"CLIENT_SECRET", .reqString⟩,
   ⟨"REDIRECT_URI", .reqString⟩,
   ⟨"OAUTH_STEP_ONE_GET_ENDPOINT", .reqString⟩,
   ⟨"OAUTH_STEP_TWO_POST_ENDPOINT", .reqString⟩,
   ⟨"SCOPE", .reqString⟩,
   ⟨"SERVER_HOST", .reqString⟩,
   ⟨"SERVER_PORT", .reqNumber⟩,
   ⟨"REDIS_HOST", .reqString⟩,
   ⟨"REDIS_PORT", .reqNumber⟩,
   ⟨"REDIS_EXPIRATION_TIME", .reqNumber⟩,
   ⟨"RATE_LIMIT_MINUTES", .reqNumber⟩,
   ⟨"RATE_LIMIT_MAX_REQUESTS", .reqNumber⟩,
   ⟨"NODE_ENV", .optEnum ["production", "development"]⟩,
   ⟨"INFO_LOG_LEVEL", .reqString⟩,
   ⟨"DEBUG_LOG_LEVEL", .reqString⟩,
   ⟨"ERROR_LOG_LEVEL", .reqString⟩,
   ⟨"SERVICE_NAME", .reqString⟩,
   ⟨"ERROR_LOG_PATH", .reqString⟩,
   ⟨"COMBINED_LOG_PATH", .reqString⟩,
   ⟨"IDRIVE_ACCESS_KEY_ID", .reqString⟩,
   ⟨"IDRIVE_SECRET_ACCESS_KEY", .reqString⟩,
   ⟨"IDRIVE_S3_REGION", .reqString⟩,
   ⟨"IDRIVE_S3_ACL", .reqString⟩,
   ⟨"IDRIVE_S3_ENDPOINT", .reqString⟩,
   ⟨"IDRIVE_S3_BUCKET_NAME", .reqString⟩,
   ⟨"IDRIVE_S3_PICTURES_FOLDER", .reqString⟩,
   ⟨"IDRIVE_S3_SIGNATURES_FOLDER", .reqString⟩,
   ⟨"IDRIVE_S3_PUBLIC_ENDPOINT", .reqString⟩]

/-- Startup configuration load (part_000 lines 41-46): validate the
environment against the schema, throwing (an error result) on any
validation failure. -/
def loadConfig (env : EnvMap) : Except String EnvMap :=
  if validateEnv cciConfigSchema env then .ok env
  else .error "Config validation error"

/-- A sample environment carrying every required variable with a well-formed
value (numbers as digit strings), used to witness acceptance. -/
def cciEnvExample : EnvMap :=
  [("CLIENT_ID", "id"), ("CLIENT_SECRET", "secret"), ("REDIRECT_URI", "uri"),
   ("OAUTH_STEP_ONE_GET_ENDPOINT", "one"), ("OAUTH_STEP_TWO_POST_ENDPOINT", "two"),
   ("SCOPE", "scope"), ("SERVER_HOST", "host"), ("SERVER_PORT", "3000"),
   ("REDIS_HOST", "redis"), ("REDIS_PORT", "6379"), ("REDIS_EXPIRATION_TIME", "86400"),
   ("RATE_LIMIT_MINUTES", "15"), ("RATE_LIMIT_MAX_REQUESTS", "100"),
   ("NODE_ENV", "production"), ("INFO_LOG_LEVEL", "info"), ("DEBUG_LOG_LEVEL", "debug"),
   ("ERROR_LOG_LEVEL", "error"), ("SERVICE_NAME", "svc"), ("ERROR_LOG_PATH", "err.log"),
   ("COMBINED_LOG_PATH", "all.log"), ("IDRIVE_ACCESS_KEY_ID", "ak"),
   ("IDRIVE_SECRET_ACCESS_KEY", "sk"), ("IDRIVE_S3_REGION", "region"),
   ("IDRIVE_S3_ACL", "public-read"), ("IDRIVE_S3_ENDPOINT", "endpoint"),
   ("IDRIVE_S3_BUCKET_NAME", "bucket"), ("IDRIVE_S3_PICTURES_FOLDER", "pics"),
   ("IDRIVE_S3_SIGNATURES_FOLDER", "sigs"), ("IDRIVE_S3_PUBLIC_ENDPOINT", "public")]

/-! ## Helper lemmas -/

/-- No Base64 alphabet lookup ever yields the padding character. -/
theorem b64c_beq_pad (n : Nat) : (b64c n == '=') = false := by
  by_cases h : n < 64
  · have hb : ∀ m, m < 64 → (b64c m == '=') = false := by decide
    exact hb n h
  · have hlen : b64Alphabet.length = 64 := rfl
    unfold b64c
    rw [List.getD_eq_default]
    · rfl
    · rw [hlen]
      omega

/-- Bne form of `b64c_beq_pad`. -/
theorem b64c_bne_pad (n : Nat) : (b64c n != '=') = true := by
  simp [bne, b64c_beq_pad]

/-- Stripping the padding from a Base64 encoding of a byte list whose length
is 2 mod 3 leaves 4 characters per full group plus 3. -/
theorem stripB64Len : ∀ l : List Nat, l.length % 3 = 2 →
    (stripChar '=' (b64encode l)).length = l.length / 3 * 4 + 3
  | [] => by intro h; simp at h
  | [b1] => by intro h; simp at h
  | [b1, b2] => by
      intro h
      simp [b64encode, stripChar, List.filter, b64c_bne_pad]
  | b1 :: b2 :: b3 :: rest => by
      intro h
      have hr : rest.length % 3 = 2 := by
        simp [List.length_cons] at h
        omega
      have ih := stripB64Len rest hr
      simp only [b64encode, stripChar, List.filter, b64c_bne_pad] at ih ⊢
      simp only [List.length_cons]
      rw [ih]
      omega

/-- Filtering commutes with a character map that preserves the filter
predicate. -/
theorem filter_map_comm (f : Char → Char) (p : Char → Bool)
    (hp : ∀ x, p (f x) = p x) (l : List Char) :
    (l.map f).filter p = (l.filter p).map f := by
  induction l with
  | nil => rfl
  | cons c t ih =>
    simp only [List.map_cons, List.filter_cons, hp c]
    by_cases h : p c = true
    · simp [h, ih]
    · simp [h, ih]

/-- Replacement of a non-padding character by a non-padding character
commutes with stripping the padding. -/
theorem stripChar_replAll_comm (a b : Char) (ha : (a == '=') = false)
    (hb : (b == '=') = false) (l : List Char) :
    stripChar '=' (replAll a b l) = replAll a b (stripChar '=' l) := by
  have hp : ∀ x : Char, ((if x = a then b else x) != '=') = (x != '=') := by
    intro x
    by_cases hx : x = a
    · subst hx
      simp [bne, ha, hb]
    · simp [hx]
  exact filter_map_comm _ _ hp l

/-- Character replacement preserves length. -/
theorem replAll_length (a b : Char) (l : List Char) :
    (replAll a b l).length = l.length := by
  simp [replAll]

/-- A SHA-256 digest is exactly 32 bytes. -/
theorem sha256Bytes_length (msg : List Nat) : (sha256Bytes msg).length = 32 := by
  simp [sha256Bytes, wordBytes]

/-- Every character surviving the three URL-safe substitutions of the code
challenge is none of `+`, `/`, `=`. -/
theorem all_good_chars (l : List Char) :
    (stripChar '=' (replAll '/' '_' (replAll '+' '-' l))).all
      (fun c => c != '+' && c != '/' && c != '=') = true := by
  induction l with
  | nil => rfl
  | cons c t ih =>
    simp only [replAll, stripChar, List.map_cons, List.filter_cons] at ih ⊢
    by_cases h1 : c = '+'
    · subst h1
      simpa using ih
    · by_cases h2 : c = '/'
      · subst h2
        simpa [h1] using ih
      · by_cases h3 : c = '='
        · subst h3
          simpa [h1, h2] using ih
        · have hkeep : (c != '=') = true := by simp [bne, h3]
          have hp : (c != '+') = true := by simp [bne, h1]
          have hq : (c != '/') = true := by simp [bne, h2]
          simp only [if_neg h1, if_neg h2, hkeep, if_true, List.all_cons, hp, hq,
                     Bool.true_and, Bool.and_self]
          exact ih

/-- A character-list begins with itself followed by anything. -/
theorem startsWithL_self_append (p r : List Char) : startsWithL p (p ++ r) = true := by
  induction p with
  | nil => rfl
  | cons a as ih => simp [startsWithL, ih]

/-- A string begins with itself followed by anything. -/
theorem strStartsWith_self_append (p r : String) : strStartsWith p (p ++ r) = true := by
  simp [strStartsWith, String.data_append, startsWithL_self_append]

/-! ## Claim theorems -/

/-- C3: for every verifier string `v`, `generateCodeChallenge v` is
deterministic, contains none of the characters `+`, `/`, `=`, and has
length exactly 43. -/
theorem c3_codeChallenge_spec (v : String) :
    generateCodeChallenge v = generateCodeChallenge v ∧
    (generateCodeChallenge v).data.all (fun c => c != '+' && c != '/' && c != '=') = true ∧
    (generateCodeChallenge v).length = 43 := by
  refine ⟨rfl, all_good_chars _, ?_⟩
  have hlen : (sha256Bytes (strBytes v)).length = 32 := sha256Bytes_length _
  have h2 : (sha256Bytes (strBytes v)).length % 3 = 2 := by rw [hlen]
  have h43 := stripB64Len (sha256Bytes (strBytes v)) h2
  rw [hlen] at h43
  show (stripChar '=' (replAll '/' '_' (replAll '+' '-'
        (b64encode (sha256Bytes (strBytes v)))))).length = 43
  rw [stripChar_replAll_comm _ _ (by decide) (by decide),
      stripChar_replAll_comm _ _ (by decide) (by decide),
      replAll_length, replAll_length, h43]

/-- C1 counterexample: when neither a stored state nor a `state` query
parameter is present, the JS strict comparison `undefined !== undefined`
is false, so the `/callback` handler does NOT respond 400 and DOES issue
the token-exchange call, contradicting the claim's guarantee for absent
stored state. Shown for the session variant and the cookie variant. -/
theorem c1_callback_state_counterexample :
    (callbackSession ⟨none, none, none⟩ none none (.ok ⟨"tok"⟩)).status ≠ 400 ∧
    (callbackSession ⟨none, none, none⟩ none none (.ok ⟨"tok"⟩)).exchangeCalled = true ∧
    (callbackCookie ⟨"", "", "", "", ""⟩ ⟨none, none⟩ none none (.ok ⟨"tok"⟩)).status ≠ 400 ∧
    (callbackCookie ⟨"", "", "", "", ""⟩ ⟨none, none⟩ none none (.ok ⟨"tok"⟩)).exchangeCalled = true := by
  refine ⟨?_, ?_, ?_, ?_⟩ <;> simp [callbackSession, callbackCookie]

/-- C1 amended: whenever the stored state differs from the returned `state`
query parameter under the strict comparison — any mismatch of present
values, and any case where exactly one of the two is absent — both
`/callback` variants respond HTTP 400 with the generic CSRF message and
issue no token-exchange call. (When stored state and parameter are both
absent the comparison succeeds and the handler proceeds to the exchange.) -/
theorem c1_callback_state_amended (sess : SessionData) (cfg : OAuthConfig)
    (jar : CookieJar) (returnedState code : Option String)
    (exch : Except String TokenData)
    (hs : sess.oauthState ≠ returnedState) (hj : returnedState ≠ jar.oauth_state) :
    (callbackSession sess returnedState code exch).status = 400 ∧
    (callbackSession sess returnedState code exch).body = CSRF_MSG ∧
    (callbackSession sess returnedState code exch).exchangeCalled = false ∧
    (callbackCookie cfg jar returnedState code exch).status = 400 ∧
    (callbackCookie cfg jar returnedState code exch).body = CSRF_MSG ∧
    (callbackCookie cfg jar returnedState code exch).exchangeCalled = false := by
  simp [callbackSession, callbackCookie, hs, hj]

/-- C1 amended, witnessed at a concrete mismatch: stored state `a`, returned
state `b`. -/
theorem c1_callback_state_witness :
    (SessionData.oauthState ⟨some "a", some "v", none⟩ ≠ some "b") ∧
    (some "b" ≠ CookieJar.oauth_state ⟨some "a", some "v"⟩) ∧
    (callbackSession ⟨some "a", some "v", none⟩ (some "b") (some "c") (.ok ⟨"tok"⟩)).status = 400 ∧
    (callbackSession ⟨some "a", some "v", none⟩ (some "b") (some "c") (.ok ⟨"tok"⟩)).exchangeCalled = false :=
  have h := c1_callback_state_amended ⟨some "a", some "v", none⟩ ⟨"", "", "", "", ""⟩
    ⟨some "a", some "v"⟩ (some "b") (some "c") (.ok ⟨"tok"⟩)
    (by decide) (by decide)
  ⟨by decide, by decide, h.1, h.2.2.1⟩

/-- C2: after a successful flow (`/auth` storing the generated secrets, then
`/callback` with the matching state and a provider exchange that succeeds),
the session variant stores the token in the session, the cookie variant
delivers it to the client by redirect with the URL-encoded access token,
and in both variants the stored state and code verifier are no longer
retrievable from the transient store. -/
theorem c2_success_flow (cfg : OAuthConfig) (sess0 : SessionData)
    (s v c : String) (tok : TokenData) :
    (callbackSession (authSession cfg sess0 s v).1 (some s) (some c) (.ok tok)).status = 200 ∧
    (callbackSession (authSession cfg sess0 s v).1 (some s) (some c) (.ok tok)).sessionAfter.tokenData = some tok ∧
    (callbackSession (authSession cfg sess0 s v).1 (some s) (some c) (.ok tok)).sessionAfter.oauthState = none ∧
    (callbackSession (authSession cfg sess0 s v).1 (some s) (some c) (.ok tok)).sessionAfter.codeVerifier = none ∧
    (callbackCookie cfg (authCookie cfg s v).1 (some s) (some c) (.ok tok)).redirectTo =
      some (cfg.appHome ++ "/dashboard?data=" ++ encodeURIComponent tok.access_token) ∧
    (callbackCookie cfg (authCookie cfg s v).1 (some s) (some c) (.ok tok)).cookiesAfter.oauth_state = none ∧
    (callbackCookie cfg (authCookie cfg s v).1 (some s) (some c) (.ok tok)).cookiesAfter.oauth_code_verifier = none := by
  refine ⟨?_, ?_, ?_, ?_, ?_, ?_, ?_⟩ <;>
    simp [callbackSession, callbackCookie, authSession, authCookie]

/-- C4: replaying the same `/callback` request (same present code and state)
after a first successful callback cleared the secrets is rejected through
the 400 state-mismatch path, with no second token exchange, in both
variants, whatever the second exchange outcome would have been. -/
theorem c4_replay_rejected (cfg : OAuthConfig) (sess0 : SessionData)
    (s v c : String) (tok : TokenData) (exch2 : Except String TokenData) :
    (callbackSession (authSession cfg sess0 s v).1 (some s) (some c) (.ok tok)).status = 200 ∧
    (callbackSession
        (callbackSession (authSession cfg sess0 s v).1 (some s) (some c) (.ok tok)).sessionAfter
        (some s) (some c) exch2).status = 400 ∧
    (callbackSession
        (callbackSession (authSession cfg sess0 s v).1 (some s) (some c) (.ok tok)).sessionAfter
        (some s) (some c) exch2).body = CSRF_MSG ∧
    (callbackSession
        (callbackSession (authSession cfg sess0 s v).1 (some s) (some c) (.ok tok)).sessionAfter
        (some s) (some c) exch2).exchangeCalled = false ∧
    (callbackCookie cfg
        (callbackCookie cfg (authCookie cfg s v).1 (some s) (some c) (.ok tok)).cookiesAfter
        (some s) (some c) exch2).status = 400 ∧
    (callbackCookie cfg
        (callbackCookie cfg (authCookie cfg s v).1 (some s) (some c) (.ok tok)).cookiesAfter
        (some s) (some c) exch2).exchangeCalled = false := by
  refine ⟨?_, ?_, ?_, ?_, ?_, ?_⟩ <;>
    simp [callbackSession, callbackCookie, authSession, authCookie]

/-- C5: on any token-exchange failure both `/callback` variants respond
HTTP 500 with a fixed generic body that does not depend on the provider's
error detail, and the detail is written to the server-side log only. -/
theorem c5_exchange_failure_generic (cfg : OAuthConfig) (s v c err : String)
    (td : Option TokenData) :
    (callbackSession ⟨some s, some v, td⟩ (some s) (some c) (.error err)).status = 500 ∧
    (callbackSession ⟨some s, some v, td⟩ (some s) (some c) (.error err)).body =
      "Error obtaining token." ∧
    (callbackSession ⟨some s, some v, td⟩ (some s) (some c) (.error err)).logged =
      ["Error details: " ++ err] ∧
    (callbackCookie cfg ⟨some s, some v⟩ (some s) (some c) (.error err)).status = 500 ∧
    (callbackCookie cfg ⟨some s, some v⟩ (some s) (some c) (.error err)).body =
      "Internal Server Error" ∧
    (callbackCookie cfg ⟨some s, some v⟩ (some s) (some c) (.error err)).logged =
      ["Error details: " ++ err] := by
  refine ⟨?_, ?_, ?_, ?_, ?_, ?_⟩ <;> simp [callbackSession, callbackCookie]

/-- C10: on a token-exchange failure the per-flow transient state is left
unchanged: the session variant keeps the whole session (state and verifier
still stored, no token written), and the cookie variant does not clear the
two secret cookies. -/
theorem c10_failure_preserves_secrets (cfg : OAuthConfig) (s v c err : String)
    (td : Option TokenData) :
    (callbackSession ⟨some s, some v, td⟩ (some s) (some c) (.error err)).sessionAfter =
      ⟨some s, some v, td⟩ ∧
    (callbackSession ⟨some s, some v, none⟩ (some s) (some c) (.error err)).sessionAfter.tokenData =
      none ∧
    (callbackCookie cfg ⟨some s, some v⟩ (some s) (some c) (.error err)).cookiesAfter =
      ⟨some s, some v⟩ := by
  refine ⟨?_, ?_, ?_⟩ <;> simp [callbackSession, callbackCookie]

/-- C6: a `/api/uploadToS3` request with exactly two files succeeds, uploads
both — each file whose original name contains `picture` under the pictures
folder, every other file under the signatures folder — and returns exactly
two URLs, each beginning with the configured public endpoint. -/
theorem c6_upload_two_files (cfg : S3Config) (locOf : UploadParams → String)
    (f1 f2 : UploadFile) :
    (uploadToS3 cfg locOf [f1, f2]).status = 200 ∧
    (uploadToS3 cfg locOf [f1, f2]).urls.length = 2 ∧
    (uploadToS3 cfg locOf [f1, f2]).urls.all
      (fun u => strStartsWith cfg.publicEndpoint u) = true ∧
    (uploadToS3 cfg locOf [f1, f2]).uploadedParams.map (fun p => p.paramKey) =
      [(if containsSeg f1.originalname "picture"
         then cfg.picturesFolder ++ "/" ++ f1.originalname
         else cfg.signaturesFolder ++ "/" ++ f1.originalname),
       (if containsSeg f2.originalname "picture"
         then cfg.picturesFolder ++ "/" ++ f2.originalname
         else cfg.signaturesFolder ++ "/" ++ f2.originalname)] := by
  refine ⟨?_, ?_, ?_, ?_⟩ <;>
    simp [uploadToS3, uploadFullFileName, publicUrlOf, strStartsWith_self_append]

/-- C7: a `/api/uploadToS3` request whose file count is not exactly 2 fails
as a whole with HTTP 400 and uploads nothing to object storage. -/
theorem c7_upload_wrong_count (cfg : S3Config) (locOf : UploadParams → String)
    (files : List UploadFile) (hcount : files.length ≠ 2) :
    uploadToS3 cfg locOf files =
      { status := 400, message := "Both signature and image files are required.",
        urls := [], uploadedParams := [] } := by
  simp [uploadToS3, hcount]

/-- C7 witnessed at the empty upload: zero files is rejected with 400 and an
empty upload list. -/
theorem c7_upload_wrong_count_witness :
    (([] : List UploadFile).length ≠ 2) ∧
    uploadToS3 ⟨"bkt", "acl", "pics", "sigs", "pub"⟩ (fun _ => "loc") [] =
      { status := 400, message := "Both signature and image files are required.",
        urls := [], uploadedParams := [] } :=
  ⟨by decide, c7_upload_wrong_count _ _ _ (by decide)⟩

/-- C8 counterexample: the `/api/updateItemFulfillmentRecord` route is
registered as GET, not POST, and a request with every body field missing is
not answered with HTTP 400 — the handler performs the PATCH and returns 200
with the downstream response. -/
theorem c8_update_record_counterexample :
    updateItemFulfillmentRecordMethod ≠ HttpMethod.POST ∧
    (updateItemFulfillmentRecord "root" none none (.ok "resp")).status = 200 ∧
    (updateItemFulfillmentRecord "root" none none (.ok "resp")).status ≠ 400 := by
  refine ⟨by decide, rfl, by decide⟩

/-- C8 amended: `/api/updateItemFulfillmentRecord` is a GET taking `data`
and `id` query parameters; it proxies a PATCH (empty payload, bearer header
built from `data`) to the downstream record URL and returns the downstream
JSON; a downstream failure surfaces as the generic 500, and no input is
ever answered with 400 — the handler validates nothing. -/
theorem c8_update_record_amended (restRootUri : String) (dataQ idQ : Option String)
    (j e : String) :
    updateItemFulfillmentRecordMethod = HttpMethod.GET ∧
    updateItemFulfillmentRecord restRootUri dataQ idQ (.ok j) =
      { status := 200, body := j,
        patched := some (restRootUri ++ "/itemFulfillment/" ++ orUndefined idQ,
                         "Bearer " ++ orUndefined dataQ) } ∧
    (updateItemFulfillmentRecord restRootUri dataQ idQ (.error e)).status = 500 ∧
    (updateItemFulfillmentRecord restRootUri dataQ idQ (.error e)).body =
      "Internal Server Error" ∧
    (updateItemFulfillmentRecord restRootUri dataQ idQ (.ok j)).status ≠ 400 ∧
    (updateItemFulfillmentRecord restRootUri dataQ idQ (.error e)).status ≠ 400 := by
  refine ⟨rfl, rfl, rfl, rfl, by simp [updateItemFulfillmentRecord], by simp [updateItemFulfillmentRecord]⟩

/-- One schema entry validates identically after an environment is extended
with a key that is not the entry's key. -/
theorem validateField_extend (env : EnvMap) (k v : String) (f : JField)
    (hk : (f.key != k) = true) :
    validateField ((k, v) :: env) f = validateField env f := by
  have hne : f.key ≠ k := bne_iff_ne.mp hk
  have hbeq : (k == f.key) = false := beq_eq_false_iff_ne.mpr (Ne.symm hne)
  have hlo : lookupEnv ((k, v) :: env) f.key = lookupEnv env f.key := by
    simp [lookupEnv, List.find?_cons_of_neg, hbeq]
  simp [validateField, hlo]

/-- The whole schema validates identically after an environment is extended
with a key outside the schema. -/
theorem validateEnv_extend : ∀ (schema : List JField) (env : EnvMap) (k v : String),
    schema.all (fun f => f.key != k) = true →
    validateEnv schema ((k, v) :: env) = validateEnv schema env
  | [], _, _, _, _ => rfl
  | f :: t, env, k, v, hk => by
      simp only [List.all_cons, Bool.and_eq_true] at hk
      have ih := validateEnv_extend t env k v hk.2
      simp only [validateEnv, List.all_cons] at ih ⊢
      rw [validateField_extend env k v f hk.1, ih]

/-- C9: the startup configuration validation rejects every environment in
which a schema entry is absent while required, or present but malformed
(throwing before the server serves), and accepts unknown extra keys: an
accepted environment stays accepted after adding any key outside the
schema. -/
theorem c9_config_validation :
    (∀ (env : EnvMap) (f : JField), f ∈ cciConfigSchema →
        ((isRequiredKind f.kind = true ∧ lookupEnv env f.key = none) ∨
         (∃ w, lookupEnv env f.key = some w ∧ fieldOk f.kind w = false)) →
        loadConfig env = .error "Config validation error") ∧
    (∀ (env : EnvMap) (k v : String),
        loadConfig env = .ok env →
        cciConfigSchema.all (fun f => f.key != k) = true →
        loadConfig ((k, v) :: env) = .ok ((k, v) :: env)) := by
  constructor
  · intro env f hf hbad
    have hvf : validateField env f = false := by
      rcases hbad with ⟨hreq, hnone⟩ | ⟨w, hw, hbadw⟩
      · cases hk : f.kind with
        | reqString => simp [validateField, hnone, hk]
        | reqNumber => simp [validateField, hnone, hk]
        | optEnum allowed =>
            rw [hk] at hreq
            simp [isRequiredKind] at hreq
      · cases hk : f.kind with
        | reqString =>
            rw [hk] at hbadw
            simp [validateField, hw, hk, hbadw]
        | reqNumber =>
            rw [hk] at hbadw
            simp [validateField, hw, hk, hbadw]
        | optEnum allowed =>
            rw [hk] at hbadw
            simp [validateField, hw, hk, hbadw]
    have hval : validateEnv cciConfigSchema env = false := by
      cases hval : validateEnv cciConfigSchema env with
      | false => rfl
      | true =>
          exfalso
          have := List.all_eq_true.mp hval f hf
          rw [hvf] at this
          exact Bool.false_ne_true this
    simp [loadConfig, hval]
  · intro env k v hok hall
    have hval : validateEnv cciConfigSchema env = true := by
      cases hv : validateEnv cciConfigSchema env with
      | false =>
          exfalso
          simp [loadConfig, hv] at hok
      | true => rfl
    simp [loadConfig, validateEnv_extend _ _ _ _ hall, hval]

/-- C9 witnessed concretely: the empty environment (CLIENT_ID absent) is
rejected, and the sample complete environment stays accepted after adding
the unknown key EXTRA_KEY. -/
theorem c9_config_validation_witness :
    loadConfig [] = .error "Config validation error" ∧
    loadConfig (("EXTRA_KEY", "extra") :: cciEnvExample) =
      .ok (("EXTRA_KEY", "extra") :: cciEnvExample) :=
  ⟨c9_config_validation.1 [] ⟨"CLIENT_ID", .reqString⟩ (by decide)
     (Or.inl ⟨rfl, rfl⟩),
   c9_config_validation.2 cciEnvExample "EXTRA_KEY" "extra" rfl (by decide)⟩
